import Mathlib

/-!
Shallow embedding of the Binokel scoreboard core (`src/app.py`).

The program is a FastAPI application over SQLite.  The round-scoring
state machine lives in `api_calculate_round`; session creation in
`api_create_game`; deletion in `api_delete_game`.  SQLite rows are
modelled as structures whose nullable columns are `Option Int`
(`Option String` for `winner`); the per-game round table is a
`List Round` ordered ascending by `round` (as produced by `fetch_rounds`
with its `ORDER BY round ASC`).  `HTTPException(status, detail)` is
modelled by the `HTTPError` structure and fallible routes return
`Except HTTPError _`.
-/

namespace Binokel

/-- One row of the `Overview` table.  Schema (`init_db`, src/app.py lines
24-40): `end_points_team1`/`end_points_team2` are `INTEGER DEFAULT 0`
(so a freshly inserted row carries the value `0`, not NULL), `winner`
is a nullable `TEXT`. -/
structure Overview where
  player1 : String
  player2 : String
  player3 : String
  player4 : String
  created_at : String
  team1 : String
  team2 : String
  end_points_team1 : Option Int
  end_points_team2 : Option Int
  winner : Option String
deriving Repr, DecidableEq

/-- One row of a per-game round table (`ensure_game_table`, src/app.py
lines 59-82).  Every column is nullable. -/
structure Round where
  round : Option Int
  mixing : Option Int
  bid_value : Option Int
  bid_team : Option Int
  meld_team1 : Option Int
  meld_team2 : Option Int
  play_team1 : Option Int
  play_team2 : Option Int
  confirmed : Option Int
  result_team1 : Option Int
  result_team2 : Option Int
  total_team1 : Option Int
  total_team2 : Option Int
deriving Repr, DecidableEq

/-- A row freshly inserted with unspecified columns: every column NULL. -/
def emptyRound : Round :=
  ⟨none, none, none, none, none, none, none, none, none, none, none, none, none⟩

/-- The state of one game session: its `Overview` row together with its
round table (ordered ascending by `round`). -/
structure GameState where
  overview : Overview
  rounds : List Round
deriving Repr, DecidableEq

deriving instance DecidableEq for Except

/-- `HTTPException(status_code, detail)`. -/
structure HTTPError where
  status : Nat
  detail : String
deriving Repr, DecidableEq

/-- The JSON body returned by `api_calculate_round`: the `thousand`
branch returns `{"status": "thousand", winner, end_points_team1,
end_points_team2}` (line 237), the other branch `{"status": "ok",
game_finished, winner, totals}` (lines 321-326). -/
inductive CalcResult where
  | thousandResp (winner : String) (end_points_team1 end_points_team2 : Int)
  | okResp (game_finished : Bool) (winner : Option String)
      (total_team1 total_team2 : Int)
deriving Repr, DecidableEq

/-- `compute_previous_totals` (src/app.py lines 103-107): the last row's
totals, with Python's `x or 0` collapsing NULL (and 0) to 0; `(0, 0)`
for an empty list. -/
def compute_previous_totals (rounds : List Round) : Int × Int :=
  match rounds.getLast? with
  | none => (0, 0)
  | some last => (last.total_team1.getD 0, last.total_team2.getD 0)

/-- The scoring block of `api_calculate_round` (src/app.py lines
240-256), returning `(confirmed, result_team1, result_team2)`.
`confirmed` is the Int the code stores (1 or 0). -/
def compute_scores (mode : String)
    (bid_value bid_team meld_team1 meld_team2 play_team1 play_team2 : Int) :
    Int × Int × Int :=
  if mode = "einfach_ab" then
    if bid_team = 1 then
      (0, -bid_value, meld_team2 + play_team2)
    else
      (0, meld_team1 + play_team1, -bid_value)
  else
    if bid_team = 1 then
      if meld_team1 + play_team1 ≥ bid_value then
        (1, meld_team1 + play_team1, meld_team2 + play_team2)
      else
        (0, -(bid_value * 2), meld_team2 + play_team2)
    else
      if meld_team2 + play_team2 ≥ bid_value then
        (1, meld_team1 + play_team1, meld_team2 + play_team2)
      else
        (0, meld_team1 + play_team1, -(bid_value * 2))

/-- The game-end check of `api_calculate_round` (src/app.py lines
286-300), returning `(game_finished, winner)`.  Only the bidding
team's new total is examined. -/
def check_finished (bid_team total_team1 total_team2 : Int) :
    Bool × Option String :=
  if bid_team = 1 then
    if total_team1 ≥ 1000 then (true, some "Team 1")
    else if total_team1 ≤ -1000 then (true, some "Team 2")
    else (false, none)
  else
    if total_team2 ≥ 1000 then (true, some "Team 2")
    else if total_team2 ≤ -1000 then (true, some "Team 1")
    else (false, none)

/-- The `UPDATE "{game_id}" SET ... WHERE round=?` of src/app.py lines
262-283, applied to one row: overwrite the bid/meld/play/confirmed/
result/total columns. -/
def resolve_row (bid_value bid_team meld_team1 meld_team2 play_team1
    play_team2 confirmed result_team1 result_team2 total_team1
    total_team2 : Int) (r : Round) : Round :=
  { r with
    bid_value := some bid_value
    bid_team := some bid_team
    meld_team1 := some meld_team1
    meld_team2 := some meld_team2
    play_team1 := some play_team1
    play_team2 := some play_team2
    confirmed := some confirmed
    result_team1 := some result_team1
    result_team2 := some result_team2
    total_team1 := some total_team1
    total_team2 := some total_team2 }

/-- `api_calculate_round` (src/app.py lines 183-326) for one game whose
`Overview` row is present (`fetch_overview` has succeeded).

Validation (lines 195-206), then either the `thousand` branch (lines
219-237: overwrite the session outcome, delete the current round row)
or the normal/einfach_ab branch (lines 239-326: compute scores, update
the current round row, check for game end; on end write the outcome to
`Overview`, otherwise insert the next round's skeleton row). -/
def api_calculate_round (st : GameState) (round_no : Int)
    (bid_value bid_team meld_team1 meld_team2 play_team1 play_team2 : Int)
    (mode : String) : Except HTTPError (GameState × CalcResult) :=
  if bid_value < 200 ∨ bid_value % 10 ≠ 0 then
    .error ⟨400, "Gereizt Wert muss ab 200 in 10er Schritten sein"⟩
  else if ¬(bid_team = 1 ∨ bid_team = 2) then
    .error ⟨400, "Gereizt Team muss 1 oder 2 sein"⟩
  else if ¬(mode = "normal" ∨ mode = "einfach_ab" ∨ mode = "thousand") then
    .error ⟨400, "Ungültiger Modus"⟩
  else
    match st.rounds.getLast? with
    | none => .error ⟨400, "Nur die letzte Runde kann bearbeitet werden"⟩
    | some lastR =>
      if lastR.round ≠ some round_no then
        .error ⟨400, "Nur die letzte Runde kann bearbeitet werden"⟩
      else
        let prev := compute_previous_totals st.rounds.dropLast
        if mode = "thousand" then
          let end_points_team1 : Int := if bid_team = 1 then 1000 else 0
          let end_points_team2 : Int := if bid_team = 1 then 0 else 1000
          let winner : String := if bid_team = 1 then "Team 1" else "Team 2"
          let ov := { st.overview with
            end_points_team1 := some end_points_team1
            end_points_team2 := some end_points_team2
            winner := some winner }
          let rounds := st.rounds.filter (fun r => r.round ≠ some round_no)
          .ok (⟨ov, rounds⟩,
            .thousandResp winner end_points_team1 end_points_team2)
        else
          let scores := compute_scores mode bid_value bid_team meld_team1
            meld_team2 play_team1 play_team2
          let confirmed := scores.1
          let result_team1 := scores.2.1
          let result_team2 := scores.2.2
          let total_team1 := prev.1 + result_team1
          let total_team2 := prev.2 + result_team2
          let updRounds := st.rounds.map (fun r =>
            if r.round = some round_no then
              resolve_row bid_value bid_team meld_team1 meld_team2
                play_team1 play_team2 confirmed result_team1 result_team2
                total_team1 total_team2 r
            else r)
          let fin := check_finished bid_team total_team1 total_team2
          if fin.1 then
            let ov := { st.overview with
              end_points_team1 := some total_team1
              end_points_team2 := some total_team2
              winner := fin.2 }
            .ok (⟨ov, updRounds⟩, .okResp true fin.2 total_team1 total_team2)
          else
            let next_mixing :=
              ((match lastR.mixing with
                | none => 1
                | some m => if m = 0 then 1 else m) % 4) + 1
            let skel := { emptyRound with
              round := some (round_no + 1)
              mixing := some next_mixing
              total_team1 := some total_team1
              total_team2 := some total_team2 }
            .ok (⟨st.overview, updRounds ++ [skel]⟩,
              .okResp false none total_team1 total_team2)

/-- The whole SQLite database: the `Overview` table (rows keyed by `id`)
plus the dynamically created per-game round tables (keyed by the table
name, which is the game id).  `nextId` models the AUTOINCREMENT
counter. -/
structure Store where
  nextId : Int
  overviews : List (Int × Overview)
  tables : List (Int × List Round)
deriving Repr, DecidableEq

/-- `fetch_overview` (src/app.py lines 87-93): 404 "Game not found" when
no `Overview` row has the given id. -/
def fetch_overview (s : Store) (game_id : Int) : Except HTTPError Overview :=
  match s.overviews.find? (fun p => p.1 = game_id) with
  | none => .error ⟨404, "Game not found"⟩
  | some p => .ok p.2

/-- `ensure_game_table` (src/app.py lines 59-82): `CREATE TABLE IF NOT
EXISTS "{game_id}"`. -/
def ensure_game_table (s : Store) (game_id : Int) : Store :=
  if (s.tables.find? (fun p => p.1 = game_id)).isSome then s
  else { s with tables := s.tables ++ [(game_id, [])] }

/-- Insert a row into the per-game round table `game_id`. -/
def insert_round_row (s : Store) (game_id : Int) (r : Round) : Store :=
  { s with tables := s.tables.map (fun p =>
      if p.1 = game_id then (p.1, p.2 ++ [r]) else p) }

/-- Python's `str.strip()` (whitespace strip on both ends), written on
the string's character list so that it is kernel-executable. -/
def strip (s : String) : String :=
  ⟨((s.data.dropWhile Char.isWhitespace).reverse.dropWhile
      Char.isWhitespace).reverse⟩

/-- `api_create_game` (src/app.py lines 135-180): validate the four
player names and the first mixer, insert the `Overview` row (team names
derived from players 1&3 and 2&4; `end_points_team1/2` take the schema
DEFAULT 0 and `winner` NULL), create the game's round table and insert
round 1's skeleton row `(round, mixing) = (1, mixing_first_round)`. -/
def api_create_game (s : Store) (player1 player2 player3 player4 : String)
    (mixing_first_round : Int) (created_at : String) :
    Except HTTPError (Store × Int) :=
  let n1 := strip player1
  let n2 := strip player2
  let n3 := strip player3
  let n4 := strip player4
  if n1 = "" ∨ n2 = "" ∨ n3 = "" ∨ n4 = "" then
    .error ⟨400, "Alle Spielernamen angeben"⟩
  else if ¬(mixing_first_round = 1 ∨ mixing_first_round = 2 ∨
      mixing_first_round = 3 ∨ mixing_first_round = 4) then
    .error ⟨400, "Mischer muss 1-4 sein"⟩
  else
    let ov : Overview :=
      { player1 := n1, player2 := n2, player3 := n3, player4 := n4
        created_at := created_at
        team1 := n1 ++ " & " ++ n3
        team2 := n2 ++ " & " ++ n4
        end_points_team1 := some 0
        end_points_team2 := some 0
        winner := none }
    let game_id := s.nextId
    let s1 : Store := { s with
      nextId := s.nextId + 1
      overviews := s.overviews ++ [(game_id, ov)] }
    let s2 := ensure_game_table s1 game_id
    let s3 := insert_round_row s2 game_id
      { emptyRound with round := some 1, mixing := some mixing_first_round }
    .ok (s3, game_id)

/-- `api_delete_game` (src/app.py lines 329-338): `fetch_overview` first
(404 when the game is missing), then `DROP TABLE IF EXISTS "{game_id}"`
and `DELETE FROM Overview WHERE id=?`. -/
def api_delete_game (s : Store) (game_id : Int) : Except HTTPError Store :=
  match fetch_overview s game_id with
  | .error e => .error e
  | .ok _ =>
    .ok { s with
      tables := s.tables.filter (fun p => p.1 ≠ game_id)
      overviews := s.overviews.filter (fun p => p.1 ≠ game_id) }

end Binokel

namespace Binokel

/-! Concrete sample states used by the witness and counterexample
theorems. -/

/-- A freshly created game's `Overview` row (players A-D). -/
def ovA : Overview :=
  ⟨"A", "B", "C", "D", "t", "A & C", "B & D", some 0, some 0, none⟩

/-- A freshly created game: round 1's skeleton row, mixer 1. -/
def stA : GameState :=
  ⟨ovA, [{ emptyRound with round := some 1, mixing := some 1 }]⟩

/-- `stA` after resolving round 1 with bid 220 by team 1, meld 100,
play 150 (the spec's first normal-mode example). -/
def stA_after : GameState :=
  ⟨ovA,
   [⟨some 1, some 1, some 220, some 1, some 100, some 0, some 150, some 0,
     some 1, some 250, some 0, some 250, some 0⟩,
    ⟨some 2, some 2, none, none, none, none, none, none, none, none, none,
     some 250, some 0⟩]⟩

/-- `stA` after a round-1 blowout (bid 200 by team 1, meld 500, play
600): team 1's total 1100 crosses 1000, so the session is terminal with
winner "Team 1". -/
def stWon : GameState :=
  ⟨⟨"A", "B", "C", "D", "t", "A & C", "B & D", some 1100, some 50,
    some "Team 1"⟩,
   [⟨some 1, some 1, some 200, some 1, some 500, some 20, some 600, some 30,
     some 1, some 1100, some 50, some 1100, some 50⟩]⟩

/-- A database with no games. -/
def emptyStore : Store := ⟨1, [], []⟩

/-- `stA` after a round-1 `thousand` declaration by team 1: terminal
outcome 1000/0, winner "Team 1", round table emptied. -/
def stA_thousand : GameState :=
  ⟨⟨"A", "B", "C", "D", "t", "A & C", "B & D", some 1000, some 0,
    some "Team 1"⟩, []⟩

/-- `stA` after resolving round 1 in einfach_ab mode, bid 200 by team 2,
melds 30/7, plays 40/8. -/
def stA_einfach : GameState :=
  ⟨ovA,
   [⟨some 1, some 1, some 200, some 2, some 30, some 7, some 40, some 8,
     some 0, some 70, some (-200), some 70, some (-200)⟩,
    ⟨some 2, some 2, none, none, none, none, none, none, none, none, none,
     some 70, some (-200)⟩]⟩

/-- `stA` after a round-1 call with a negative meld (`meld1 = -50`):
the call is not rejected; the scoring engine runs on the negative
value (tally -50 < 200, so team 1 is penalised -400). -/
def stA_neg : GameState :=
  ⟨ovA,
   [⟨some 1, some 1, some 200, some 1, some (-50), some 0, some 0, some 0,
     some 0, some (-400), some 0, some (-400), some 0⟩,
    ⟨some 2, some 2, none, none, none, none, none, none, none, none, none,
     some (-400), some 0⟩]⟩

/-! Helper lemmas shared by the claim theorems. -/

lemma check_finished_false_none (bt t1 t2 : Int) (w : Option String)
    (h : check_finished bt t1 t2 = (false, w)) : w = none := by
  unfold check_finished at h
  split at h <;> (repeat' split at h) <;> simp_all

lemma compute_scores_normal_team1 (bv m1 m2 p1 p2 : Int) :
    compute_scores "normal" bv 1 m1 m2 p1 p2 =
      (if m1 + p1 ≥ bv then 1 else 0,
       if m1 + p1 ≥ bv then m1 + p1 else -(bv * 2),
       m2 + p2) := by
  unfold compute_scores
  rw [if_neg (by decide), if_pos rfl]
  split <;> simp

lemma compute_scores_normal_team2 (bv m1 m2 p1 p2 : Int) :
    compute_scores "normal" bv 2 m1 m2 p1 p2 =
      (if m2 + p2 ≥ bv then 1 else 0,
       m1 + p1,
       if m2 + p2 ≥ bv then m2 + p2 else -(bv * 2)) := by
  unfold compute_scores
  rw [if_neg (by decide), if_neg (by decide)]
  split <;> simp

lemma compute_scores_einfach_team1 (bv m1 m2 p1 p2 : Int) :
    compute_scores "einfach_ab" bv 1 m1 m2 p1 p2 =
      (0, -bv, m2 + p2) := by
  unfold compute_scores
  rw [if_pos rfl, if_pos rfl]

lemma compute_scores_einfach_team2 (bv m1 m2 p1 p2 : Int) :
    compute_scores "einfach_ab" bv 2 m1 m2 p1 p2 =
      (0, m1 + p1, -bv) := by
  unfold compute_scores
  rw [if_pos rfl, if_neg (by decide)]

lemma check_finished_team1 (t1 t2 : Int) :
    check_finished 1 t1 t2 =
      if t1 ≥ 1000 then (true, some "Team 1")
      else if t1 ≤ -1000 then (true, some "Team 2")
      else (false, none) := by
  unfold check_finished
  rw [if_pos rfl]

lemma check_finished_team2 (t1 t2 : Int) :
    check_finished 2 t1 t2 =
      if t2 ≥ 1000 then (true, some "Team 2")
      else if t2 ≤ -1000 then (true, some "Team 1")
      else (false, none) := by
  unfold check_finished
  rw [if_neg (by decide)]

lemma calc_ok_spec
    (st : GameState) (round_no bv bt m1 m2 p1 p2 : Int) (mode : String)
    (lr : Round) (st' : GameState) (resp : CalcResult)
    (c r1 r2 pt1 pt2 : Int) (gf : Bool) (w : Option String)
    (hbv1 : 200 ≤ bv) (hbv2 : bv % 10 = 0)
    (hbt : bt = 1 ∨ bt = 2)
    (hmode : mode = "normal" ∨ mode = "einfach_ab")
    (hlast : st.rounds.getLast? = some lr)
    (hlr : lr.round = some round_no)
    (hprev : compute_previous_totals st.rounds.dropLast = (pt1, pt2))
    (hs : compute_scores mode bv bt m1 m2 p1 p2 = (c, r1, r2))
    (hfin : check_finished bt (pt1 + r1) (pt2 + r2) = (gf, w))
    (heq : api_calculate_round st round_no bv bt m1 m2 p1 p2 mode
      = .ok (st', resp)) :
    resp = .okResp gf w (pt1 + r1) (pt2 + r2) ∧
    (gf = true →
      st' = ⟨{ st.overview with
                end_points_team1 := some (pt1 + r1)
                end_points_team2 := some (pt2 + r2)
                winner := w },
             st.rounds.map (fun r => if r.round = some round_no then
               resolve_row bv bt m1 m2 p1 p2 c r1 r2 (pt1 + r1) (pt2 + r2) r
               else r)⟩) ∧
    (gf = false →
      st' = ⟨st.overview,
             st.rounds.map (fun r => if r.round = some round_no then
               resolve_row bv bt m1 m2 p1 p2 c r1 r2 (pt1 + r1) (pt2 + r2) r
               else r) ++
             [{ emptyRound with
                 round := some (round_no + 1)
                 mixing := some (((match lr.mixing with
                   | none => 1
                   | some m => if m = 0 then 1 else m) % 4) + 1)
                 total_team1 := some (pt1 + r1)
                 total_team2 := some (pt2 + r2) }]⟩) := by
  have hwnone : gf = false → w = none := by
    intro h
    exact check_finished_false_none bt _ _ w (h ▸ hfin)
  have hne : ¬(bv < 200 ∨ bv % 10 ≠ 0) := by omega
  have hmodeall : mode = "normal" ∨ mode = "einfach_ab" ∨ mode = "thousand" := by
    rcases hmode with h | h <;> simp [h]
  have hmodeth : ¬(mode = "thousand") := by
    rcases hmode with h | h <;> subst h <;> decide
  unfold api_calculate_round at heq
  rw [if_neg hne] at heq
  rw [if_neg (not_not_intro hbt)] at heq
  rw [if_neg (not_not_intro hmodeall)] at heq
  rw [hlast] at heq
  dsimp only at heq
  rw [if_neg (by simp [hlr])] at heq
  rw [if_neg hmodeth] at heq
  rw [hprev, hs] at heq
  dsimp only at heq
  rw [hfin] at heq
  dsimp only at heq
  cases gf with
  | true =>
    rw [if_pos rfl] at heq
    simp only [Except.ok.injEq, Prod.mk.injEq] at heq
    obtain ⟨h1, h2⟩ := heq
    subst h1; subst h2
    refine ⟨rfl, fun _ => rfl, fun h => by simp at h⟩
  | false =>
    rw [if_neg (by simp)] at heq
    simp only [Except.ok.injEq, Prod.mk.injEq] at heq
    obtain ⟨h1, h2⟩ := heq
    subst h1; subst h2
    refine ⟨by rw [hwnone rfl], fun h => by simp at h, fun _ => rfl⟩

lemma calc_thousand_spec
    (st : GameState) (round_no bv bt m1 m2 p1 p2 : Int)
    (lr : Round) (st' : GameState) (resp : CalcResult)
    (hbv1 : 200 ≤ bv) (hbv2 : bv % 10 = 0)
    (hbt : bt = 1 ∨ bt = 2)
    (hlast : st.rounds.getLast? = some lr)
    (hlr : lr.round = some round_no)
    (heq : api_calculate_round st round_no bv bt m1 m2 p1 p2 "thousand"
      = .ok (st', resp)) :
    st' = ⟨{ st.overview with
              end_points_team1 := some (if bt = 1 then 1000 else 0)
              end_points_team2 := some (if bt = 1 then 0 else 1000)
              winner := some (if bt = 1 then "Team 1" else "Team 2") },
           st.rounds.filter (fun r => r.round ≠ some round_no)⟩ ∧
    resp = .thousandResp (if bt = 1 then "Team 1" else "Team 2")
      (if bt = 1 then 1000 else 0) (if bt = 1 then 0 else 1000) := by
  have hne : ¬(bv < 200 ∨ bv % 10 ≠ 0) := by omega
  unfold api_calculate_round at heq
  rw [if_neg hne] at heq
  rw [if_neg (not_not_intro hbt)] at heq
  rw [if_neg (not_not_intro (by decide))] at heq
  rw [hlast] at heq
  dsimp only at heq
  rw [if_neg (by simp [hlr])] at heq
  rw [if_pos rfl] at heq
  simp only [Except.ok.injEq, Prod.mk.injEq] at heq
  exact ⟨heq.1.symm, heq.2.symm⟩

lemma resolved_row_mem
    (st : GameState) (round_no bv bt m1 m2 p1 p2 : Int) (mode : String)
    (lr : Round) (st' : GameState) (resp : CalcResult)
    (c r1 r2 pt1 pt2 : Int) (gf : Bool) (w : Option String)
    (hbv1 : 200 ≤ bv) (hbv2 : bv % 10 = 0)
    (hbt : bt = 1 ∨ bt = 2)
    (hmode : mode = "normal" ∨ mode = "einfach_ab")
    (hlast : st.rounds.getLast? = some lr)
    (hlr : lr.round = some round_no)
    (hprev : compute_previous_totals st.rounds.dropLast = (pt1, pt2))
    (hs : compute_scores mode bv bt m1 m2 p1 p2 = (c, r1, r2))
    (hfin : check_finished bt (pt1 + r1) (pt2 + r2) = (gf, w))
    (heq : api_calculate_round st round_no bv bt m1 m2 p1 p2 mode
      = .ok (st', resp)) :
    resolve_row bv bt m1 m2 p1 p2 c r1 r2 (pt1 + r1) (pt2 + r2) lr
      ∈ st'.rounds := by
  obtain ⟨-, htrue, hfalse⟩ := calc_ok_spec st round_no bv bt m1 m2 p1 p2 mode
    lr st' resp c r1 r2 pt1 pt2 gf w hbv1 hbv2 hbt hmode hlast hlr hprev hs
    hfin heq
  have hmem : lr ∈ st.rounds := List.mem_of_mem_getLast? hlast
  have hmap : (if lr.round = some round_no then
        resolve_row bv bt m1 m2 p1 p2 c r1 r2 (pt1 + r1) (pt2 + r2) lr
        else lr) ∈
      st.rounds.map (fun r => if r.round = some round_no then
        resolve_row bv bt m1 m2 p1 p2 c r1 r2 (pt1 + r1) (pt2 + r2) r
        else r) :=
    List.mem_map_of_mem _ hmem
  rw [if_pos hlr] at hmap
  cases gf with
  | true =>
    rw [htrue rfl]
    exact hmap
  | false =>
    rw [hfalse rfl]
    exact List.mem_append_left _ hmap
/-- C1: In normal mode, for every valid round resolution, the bidding
team's raw tally is its meld+play sum, `confirmed` is 1 exactly when
that tally is ≥ `bid_value` (else 0), the bidding team's result equals
the tally when confirmed and `-2*bid_value` when not confirmed, the
non-bidding team's result equals its own meld+play sum unconditionally,
and the new totals equal the previous totals plus this round's
results. -/
theorem C1_normal_mode_round_scoring
    (st : GameState)
    (round_no bid_value bid_team meld1 meld2 play1 play2 : Int)
    (lr : Round) (st' : GameState) (resp : CalcResult)
    (hbv1 : 200 ≤ bid_value) (hbv2 : bid_value % 10 = 0)
    (hbt : bid_team = 1 ∨ bid_team = 2)
    (hlast : st.rounds.getLast? = some lr)
    (hlr : lr.round = some round_no)
    (heq : api_calculate_round st round_no bid_value bid_team meld1 meld2
      play1 play2 "normal" = .ok (st', resp)) :
    ∃ r ∈ st'.rounds,
      r.round = some round_no ∧
      (bid_team = 1 →
        r.confirmed = some (if meld1 + play1 ≥ bid_value then 1 else 0) ∧
        r.result_team1 =
          some (if meld1 + play1 ≥ bid_value then meld1 + play1
                else -(2 * bid_value)) ∧
        r.result_team2 = some (meld2 + play2) ∧
        r.total_team1 =
          some ((compute_previous_totals st.rounds.dropLast).1 +
            (if meld1 + play1 ≥ bid_value then meld1 + play1
             else -(2 * bid_value))) ∧
        r.total_team2 =
          some ((compute_previous_totals st.rounds.dropLast).2 +
            (meld2 + play2))) ∧
      (bid_team = 2 →
        r.confirmed = some (if meld2 + play2 ≥ bid_value then 1 else 0) ∧
        r.result_team2 =
          some (if meld2 + play2 ≥ bid_value then meld2 + play2
                else -(2 * bid_value)) ∧
        r.result_team1 = some (meld1 + play1) ∧
        r.total_team2 =
          some ((compute_previous_totals st.rounds.dropLast).2 +
            (if meld2 + play2 ≥ bid_value then meld2 + play2
             else -(2 * bid_value))) ∧
        r.total_team1 =
          some ((compute_previous_totals st.rounds.dropLast).1 +
            (meld1 + play1))) := by
  obtain ⟨pt1, pt2, hprev⟩ :
      ∃ a b, compute_previous_totals st.rounds.dropLast = (a, b) :=
    ⟨_, _, rfl⟩
  rw [hprev]
  rcases hbt with hb | hb <;> subst hb
  · have hs := compute_scores_normal_team1 bid_value meld1 meld2 play1 play2
    by_cases ht : meld1 + play1 ≥ bid_value
    · rw [if_pos ht, if_pos ht] at hs
      obtain ⟨gf, w, hfin⟩ :
          ∃ g u, check_finished 1 (pt1 + (meld1 + play1))
            (pt2 + (meld2 + play2)) = (g, u) := ⟨_, _, rfl⟩
      have hmem := resolved_row_mem st round_no bid_value 1 meld1 meld2 play1
        play2 "normal" lr st' resp _ _ _ pt1 pt2 gf w hbv1 hbv2 (Or.inl rfl)
        (Or.inl rfl) hlast hlr hprev hs hfin heq
      refine ⟨_, hmem, by simp [resolve_row, hlr], ?_, by simp⟩
      intro _
      refine ⟨by simp [resolve_row, ht], by simp [resolve_row, ht],
        by simp [resolve_row], by simp [resolve_row, ht], by simp [resolve_row]⟩
    · rw [if_neg ht, if_neg ht] at hs
      obtain ⟨gf, w, hfin⟩ :
          ∃ g u, check_finished 1 (pt1 + -(bid_value * 2))
            (pt2 + (meld2 + play2)) = (g, u) := ⟨_, _, rfl⟩
      have hmem := resolved_row_mem st round_no bid_value 1 meld1 meld2 play1
        play2 "normal" lr st' resp _ _ _ pt1 pt2 gf w hbv1 hbv2 (Or.inl rfl)
        (Or.inl rfl) hlast hlr hprev hs hfin heq
      refine ⟨_, hmem, by simp [resolve_row, hlr], ?_, by simp⟩
      intro _
      refine ⟨by simp [resolve_row, ht], ?_, by simp [resolve_row], ?_,
        by simp [resolve_row]⟩
      · simp [resolve_row, ht]
        ring
      · simp [resolve_row, ht]
        ring_nf
  · have hs := compute_scores_normal_team2 bid_value meld1 meld2 play1 play2
    by_cases ht : meld2 + play2 ≥ bid_value
    · rw [if_pos ht, if_pos ht] at hs
      obtain ⟨gf, w, hfin⟩ :
          ∃ g u, check_finished 2 (pt1 + (meld1 + play1))
            (pt2 + (meld2 + play2)) = (g, u) := ⟨_, _, rfl⟩
      have hmem := resolved_row_mem st round_no bid_value 2 meld1 meld2 play1
        play2 "normal" lr st' resp _ _ _ pt1 pt2 gf w hbv1 hbv2 (Or.inr rfl)
        (Or.inl rfl) hlast hlr hprev hs hfin heq
      refine ⟨_, hmem, by simp [resolve_row, hlr], by simp, ?_⟩
      intro _
      refine ⟨by simp [resolve_row, ht], by simp [resolve_row, ht],
        by simp [resolve_row], by simp [resolve_row, ht], by simp [resolve_row]⟩
    · rw [if_neg ht, if_neg ht] at hs
      obtain ⟨gf, w, hfin⟩ :
          ∃ g u, check_finished 2 (pt1 + (meld1 + play1))
            (pt2 + -(bid_value * 2)) = (g, u) := ⟨_, _, rfl⟩
      have hmem := resolved_row_mem st round_no bid_value 2 meld1 meld2 play1
        play2 "normal" lr st' resp _ _ _ pt1 pt2 gf w hbv1 hbv2 (Or.inr rfl)
        (Or.inl rfl) hlast hlr hprev hs hfin heq
      refine ⟨_, hmem, by simp [resolve_row, hlr], by simp, ?_⟩
      intro _
      refine ⟨by simp [resolve_row, ht], ?_, by simp [resolve_row], ?_,
        by simp [resolve_row]⟩
      · simp [resolve_row, ht]
        ring
      · simp [resolve_row, ht]
        ring_nf
/-- C1 witness: the spec's first normal-mode example, `bidTeam=1`,
`bidValue=220`, `meld1=100`, `play1=150`, on a fresh game: round 1
resolves with `confirmed=1`, `result1=250`, totals `250/0`. -/
theorem C1_normal_mode_round_scoring_witness :
    api_calculate_round stA 1 220 1 100 0 150 0 "normal" =
      .ok (stA_after, .okResp false none 250 0) ∧
    ∃ r ∈ stA_after.rounds,
      r.round = some 1 ∧ r.confirmed = some 1 ∧ r.result_team1 = some 250 ∧
      r.result_team2 = some 0 ∧ r.total_team1 = some 250 ∧
      r.total_team2 = some 0 := by
  have h := C1_normal_mode_round_scoring stA 1 220 1 100 0 150 0
    { emptyRound with round := some 1, mixing := some 1 } stA_after
    (.okResp false none 250 0) (by decide) (by decide) (Or.inl rfl)
    (by decide) (by decide) rfl
  refine ⟨rfl, ?_⟩
  revert h
  decide

/-- C2: For every normal or einfach_ab round resolution, win detection
examines only the bidding team's new cumulative total: the game ends
exactly when that total reaches ≥1000 (bidding team wins) or ≤ -1000
(opposing team wins), regardless of the non-bidding team's total; on a
win `end_points_team1/2` are set to the final totals, `winner` is
recorded, and no next round is appended; on no win one next round is
appended. -/
theorem C2_win_detection_bidding_team_only
    (st : GameState)
    (round_no bid_value bid_team meld1 meld2 play1 play2 : Int)
    (mode : String) (lr : Round) (st' : GameState) (resp : CalcResult)
    (hbv1 : 200 ≤ bid_value) (hbv2 : bid_value % 10 = 0)
    (hbt : bid_team = 1 ∨ bid_team = 2)
    (hmode : mode = "normal" ∨ mode = "einfach_ab")
    (hlast : st.rounds.getLast? = some lr)
    (hlr : lr.round = some round_no)
    (heq : api_calculate_round st round_no bid_value bid_team meld1 meld2
      play1 play2 mode = .ok (st', resp)) :
    ∃ gf w t1 t2,
      resp = .okResp gf w t1 t2 ∧
      (gf = true ↔ ((if bid_team = 1 then t1 else t2) ≥ 1000 ∨
                    (if bid_team = 1 then t1 else t2) ≤ -1000)) ∧
      ((if bid_team = 1 then t1 else t2) ≥ 1000 →
        w = some (if bid_team = 1 then "Team 1" else "Team 2")) ∧
      ((if bid_team = 1 then t1 else t2) ≤ -1000 →
        w = some (if bid_team = 1 then "Team 2" else "Team 1")) ∧
      (gf = true →
        st'.overview.end_points_team1 = some t1 ∧
        st'.overview.end_points_team2 = some t2 ∧
        st'.overview.winner = w ∧
        st'.rounds.length = st.rounds.length) ∧
      (gf = false →
        st'.overview = st.overview ∧
        st'.rounds.length = st.rounds.length + 1) := by
  obtain ⟨pt1, pt2, hprev⟩ :
      ∃ a b, compute_previous_totals st.rounds.dropLast = (a, b) :=
    ⟨_, _, rfl⟩
  obtain ⟨c, r1, r2, hs⟩ :
      ∃ a b d, compute_scores mode bid_value bid_team meld1 meld2 play1
        play2 = (a, b, d) := ⟨_, _, _, rfl⟩
  obtain ⟨gf, w, hfin⟩ :
      ∃ g u, check_finished bid_team (pt1 + r1) (pt2 + r2) = (g, u) :=
    ⟨_, _, rfl⟩
  obtain ⟨hresp, htrue, hfalse⟩ := calc_ok_spec st round_no bid_value bid_team
    meld1 meld2 play1 play2 mode lr st' resp c r1 r2 pt1 pt2 gf w hbv1 hbv2
    hbt hmode hlast hlr hprev hs hfin heq
  refine ⟨gf, w, pt1 + r1, pt2 + r2, hresp, ?_⟩
  have hstate :
      (gf = true →
        st'.overview.end_points_team1 = some (pt1 + r1) ∧
        st'.overview.end_points_team2 = some (pt2 + r2) ∧
        st'.overview.winner = w ∧
        st'.rounds.length = st.rounds.length) ∧
      (gf = false →
        st'.overview = st.overview ∧
        st'.rounds.length = st.rounds.length + 1) := by
    constructor
    · intro hg
      rw [htrue hg]
      exact ⟨rfl, rfl, rfl, by simp⟩
    · intro hg
      rw [hfalse hg]
      exact ⟨rfl, by simp⟩
  rcases hbt with hb | hb <;> subst hb
  · rw [check_finished_team1] at hfin
    simp only [Int.reduceEq, reduceIte]
    split_ifs at hfin with h1 h2 <;>
      simp only [Prod.mk.injEq] at hfin <;>
      obtain ⟨hg, hw⟩ := hfin <;> subst hg <;> subst hw
    · exact ⟨by simp [h1], fun _ => rfl, fun h => absurd h (by omega), hstate⟩
    · exact ⟨by simp [h2], fun h => absurd h h1, fun _ => rfl, hstate⟩
    · exact ⟨by simp; omega, fun h => absurd h h1, fun h => absurd h h2, hstate⟩
  · rw [check_finished_team2] at hfin
    simp only [Int.reduceEq, reduceIte]
    split_ifs at hfin with h1 h2 <;>
      simp only [Prod.mk.injEq] at hfin <;>
      obtain ⟨hg, hw⟩ := hfin <;> subst hg <;> subst hw
    · exact ⟨by simp [h1], fun _ => rfl, fun h => absurd h (by omega), hstate⟩
    · exact ⟨by simp [h2], fun h => absurd h h1, fun _ => rfl, hstate⟩
    · exact ⟨by simp; omega, fun h => absurd h h1, fun h => absurd h h2, hstate⟩

/-- C2 witness: in the game `stA`, team 1 bids 200 and scores
meld 500 + play 600: its new total 1100 crosses 1000, the session
terminates with winner "Team 1", end points 1100/50, and no next
round is appended. -/
theorem C2_win_detection_bidding_team_only_witness :
    api_calculate_round stA 1 200 1 500 20 600 30 "normal" =
      .ok (stWon, .okResp true (some "Team 1") 1100 50) ∧
    stWon.overview.end_points_team1 = some 1100 ∧
    stWon.overview.end_points_team2 = some 50 ∧
    stWon.overview.winner = some "Team 1" ∧
    stWon.rounds.length = stA.rounds.length := by
  have h := C2_win_detection_bidding_team_only stA 1 200 1 500 20 600 30
    "normal" { emptyRound with round := some 1, mixing := some 1 } stWon
    (.okResp true (some "Team 1") 1100 50) (by decide) (by decide)
    (Or.inl rfl) (Or.inl rfl) (by decide) (by decide) rfl
  obtain ⟨gf, w, t1, t2, hresp, -, -, -, htrue, -⟩ := h
  simp only [CalcResult.okResp.injEq] at hresp
  obtain ⟨hg, hw, ht1, ht2⟩ := hresp
  subst hg; subst hw; subst ht1; subst ht2
  exact ⟨rfl, htrue rfl⟩

/-- C3: For every recordRound call with mode=thousand that passes
validation, the session becomes terminal with end points 1000 for the
bidding team and 0 for the opposing team, winner is the bidding team
irrespective of prior totals, the in-progress round row is deleted from
the ledger rather than resolved, and no round totals are updated (all
remaining rows are unchanged rows of the previous ledger). -/
theorem C3_thousand_instant_termination
    (st : GameState)
    (round_no bid_value bid_team meld1 meld2 play1 play2 : Int)
    (lr : Round) (st' : GameState) (resp : CalcResult)
    (hbv1 : 200 ≤ bid_value) (hbv2 : bid_value % 10 = 0)
    (hbt : bid_team = 1 ∨ bid_team = 2)
    (hlast : st.rounds.getLast? = some lr)
    (hlr : lr.round = some round_no)
    (heq : api_calculate_round st round_no bid_value bid_team meld1 meld2
      play1 play2 "thousand" = .ok (st', resp)) :
    st'.overview.end_points_team1 = some (if bid_team = 1 then 1000 else 0) ∧
    st'.overview.end_points_team2 = some (if bid_team = 1 then 0 else 1000) ∧
    st'.overview.winner = some (if bid_team = 1 then "Team 1" else "Team 2") ∧
    resp = .thousandResp (if bid_team = 1 then "Team 1" else "Team 2")
      (if bid_team = 1 then 1000 else 0) (if bid_team = 1 then 0 else 1000) ∧
    st'.rounds = st.rounds.filter (fun r => r.round ≠ some round_no) ∧
    (∀ r ∈ st'.rounds, r.round ≠ some round_no) ∧
    (∀ r ∈ st'.rounds, r ∈ st.rounds) := by
  obtain ⟨h1, h2⟩ := calc_thousand_spec st round_no bid_value bid_team meld1
    meld2 play1 play2 lr st' resp hbv1 hbv2 hbt hlast hlr heq
  subst h1
  refine ⟨rfl, rfl, rfl, h2, rfl, ?_, ?_⟩
  · intro r hr
    simp only [List.mem_filter, decide_eq_true_eq] at hr
    exact hr.2
  · intro r hr
    exact List.mem_of_mem_filter hr

/-- C3 witness: `bidTeam=1`, mode thousand, on a fresh game: the session
becomes terminal with end points 1000/0, winner "Team 1", and the
in-progress round 1 is removed from the ledger. -/
theorem C3_thousand_instant_termination_witness :
    api_calculate_round stA 1 200 1 0 0 0 0 "thousand" =
      .ok (stA_thousand, .thousandResp "Team 1" 1000 0) ∧
    stA_thousand.overview.end_points_team1 = some 1000 ∧
    stA_thousand.overview.end_points_team2 = some 0 ∧
    stA_thousand.overview.winner = some "Team 1" ∧
    stA_thousand.rounds = [] := by
  have h := C3_thousand_instant_termination stA 1 200 1 0 0 0 0
    { emptyRound with round := some 1, mixing := some 1 } stA_thousand
    (.thousandResp "Team 1" 1000 0) (by decide) (by decide) (Or.inl rfl)
    (by decide) (by decide) rfl
  refine ⟨rfl, ?_⟩
  revert h
  decide

/-- C4: In einfach_ab mode, for every valid round resolution, the
bidding team's result is exactly `-bid_value` regardless of the bidding
team's own meld and play values, the non-bidding team's result equals
its own meld+play sum, `confirmed` is recorded as 0 (false), and totals
are updated as previous totals plus results. -/
theorem C4_einfach_ab_scoring
    (st : GameState)
    (round_no bid_value bid_team meld1 meld2 play1 play2 : Int)
    (lr : Round) (st' : GameState) (resp : CalcResult)
    (hbv1 : 200 ≤ bid_value) (hbv2 : bid_value % 10 = 0)
    (hbt : bid_team = 1 ∨ bid_team = 2)
    (hlast : st.rounds.getLast? = some lr)
    (hlr : lr.round = some round_no)
    (heq : api_calculate_round st round_no bid_value bid_team meld1 meld2
      play1 play2 "einfach_ab" = .ok (st', resp)) :
    ∃ r ∈ st'.rounds,
      r.round = some round_no ∧
      r.confirmed = some 0 ∧
      (bid_team = 1 →
        r.result_team1 = some (-bid_value) ∧
        r.result_team2 = some (meld2 + play2) ∧
        r.total_team1 =
          some ((compute_previous_totals st.rounds.dropLast).1 +
            -bid_value) ∧
        r.total_team2 =
          some ((compute_previous_totals st.rounds.dropLast).2 +
            (meld2 + play2))) ∧
      (bid_team = 2 →
        r.result_team2 = some (-bid_value) ∧
        r.result_team1 = some (meld1 + play1) ∧
        r.total_team2 =
          some ((compute_previous_totals st.rounds.dropLast).2 +
            -bid_value) ∧
        r.total_team1 =
          some ((compute_previous_totals st.rounds.dropLast).1 +
            (meld1 + play1))) := by
  obtain ⟨pt1, pt2, hprev⟩ :
      ∃ a b, compute_previous_totals st.rounds.dropLast = (a, b) :=
    ⟨_, _, rfl⟩
  rw [hprev]
  rcases hbt with hb | hb <;> subst hb
  · have hs := compute_scores_einfach_team1 bid_value meld1 meld2 play1 play2
    obtain ⟨gf, w, hfin⟩ :
        ∃ g u, check_finished 1 (pt1 + -bid_value)
          (pt2 + (meld2 + play2)) = (g, u) := ⟨_, _, rfl⟩
    have hmem := resolved_row_mem st round_no bid_value 1 meld1 meld2 play1
      play2 "einfach_ab" lr st' resp _ _ _ pt1 pt2 gf w hbv1 hbv2 (Or.inl rfl)
      (Or.inr rfl) hlast hlr hprev hs hfin heq
    refine ⟨_, hmem, by simp [resolve_row, hlr], by simp [resolve_row],
      ?_, by simp⟩
    intro _
    exact ⟨by simp [resolve_row], by simp [resolve_row],
      by simp [resolve_row], by simp [resolve_row]⟩
  · have hs := compute_scores_einfach_team2 bid_value meld1 meld2 play1 play2
    obtain ⟨gf, w, hfin⟩ :
        ∃ g u, check_finished 2 (pt1 + (meld1 + play1))
          (pt2 + -bid_value) = (g, u) := ⟨_, _, rfl⟩
    have hmem := resolved_row_mem st round_no bid_value 2 meld1 meld2 play1
      play2 "einfach_ab" lr st' resp _ _ _ pt1 pt2 gf w hbv1 hbv2 (Or.inr rfl)
      (Or.inr rfl) hlast hlr hprev hs hfin heq
    refine ⟨_, hmem, by simp [resolve_row, hlr], by simp [resolve_row],
      by simp, ?_⟩
    intro _
    exact ⟨by simp [resolve_row], by simp [resolve_row],
      by simp [resolve_row], by simp [resolve_row]⟩

/-- C4 witness: the spec's einfach_ab example, `bidTeam=2`,
`bidValue=200`: team 2's result is exactly -200 regardless of its
meld 7 + play 8, team 1's result is its own 30+40=70. -/
theorem C4_einfach_ab_scoring_witness :
    api_calculate_round stA 1 200 2 30 7 40 8 "einfach_ab" =
      .ok (stA_einfach, .okResp false none 70 (-200)) ∧
    ∃ r ∈ stA_einfach.rounds,
      r.round = some 1 ∧ r.confirmed = some 0 ∧
      r.result_team2 = some (-200) ∧ r.result_team1 = some 70 ∧
      r.total_team1 = some 70 ∧ r.total_team2 = some (-200) := by
  have h := C4_einfach_ab_scoring stA 1 200 2 30 7 40 8
    { emptyRound with round := some 1, mixing := some 1 } stA_einfach
    (.okResp false none 70 (-200)) (by decide) (by decide) (Or.inr rfl)
    (by decide) (by decide) (by decide)
  refine ⟨by decide, ?_⟩
  revert h
  decide
/-- C5 counterexample: the code never checks whether a session is
already terminal.  After team 1 wins (`stWon`, `winner = "Team 1"`), a
further recordRound call on the same session does not fail with any
error: a `thousand` call by team 2 succeeds and overwrites the recorded
outcome with `winner = "Team 2"`. -/
theorem C5_counterexample :
    api_calculate_round stA 1 200 1 500 20 600 30 "normal" =
      .ok (stWon, .okResp true (some "Team 1") 1100 50) ∧
    stWon.overview.winner = some "Team 1" ∧
    api_calculate_round stWon 1 200 2 0 0 0 0 "thousand" =
      .ok (⟨⟨"A", "B", "C", "D", "t", "A & C", "B & D", some 0, some 1000,
            some "Team 2"⟩, []⟩,
           .thousandResp "Team 2" 0 1000) :=
  ⟨by decide, by decide, by decide⟩

/-- C5 (amended): a recordRound call on an already-terminal session is
not rejected — the code has no terminal-session check at all.  Whenever
the requested round number still matches the last ledger row and the
inputs pass validation, the call succeeds; in particular a `thousand`
call succeeds and overwrites the session's recorded outcome with the
new bidding team as winner. -/
theorem C5_terminal_session_not_rejected
    (st : GameState)
    (round_no bid_value bid_team meld1 meld2 play1 play2 : Int)
    (lr : Round)
    (hterm : st.overview.winner ≠ none)
    (hbv1 : 200 ≤ bid_value) (hbv2 : bid_value % 10 = 0)
    (hbt : bid_team = 1 ∨ bid_team = 2)
    (hlast : st.rounds.getLast? = some lr)
    (hlr : lr.round = some round_no) :
    ∃ st' resp,
      api_calculate_round st round_no bid_value bid_team meld1 meld2 play1
        play2 "thousand" = .ok (st', resp) ∧
      st'.overview.winner =
        some (if bid_team = 1 then "Team 1" else "Team 2") := by
  have hne : ¬(bid_value < 200 ∨ bid_value % 10 ≠ 0) := by omega
  unfold api_calculate_round
  rw [if_neg hne]
  rw [if_neg (not_not_intro hbt)]
  rw [if_neg (not_not_intro (by decide))]
  rw [hlast]
  dsimp only
  rw [if_neg (by simp [hlr])]
  rw [if_pos rfl]
  exact ⟨_, _, rfl, rfl⟩

/-- C5 witness: applied to the terminal session `stWon` (winner
"Team 1"): the further call succeeds and flips the winner to
"Team 2". -/
theorem C5_terminal_session_not_rejected_witness :
    stWon.overview.winner ≠ none ∧
    ∃ st' resp,
      api_calculate_round stWon 1 200 2 0 0 0 0 "thousand" =
        .ok (st', resp) ∧
      st'.overview.winner =
        some (if (2:Int) = 1 then "Team 1" else "Team 2") :=
  ⟨by decide,
   C5_terminal_session_not_rejected stWon 1 200 2 0 0 0 0
     ⟨some 1, some 1, some 200, some 1, some 500, some 20, some 600, some 30,
      some 1, some 1100, some 50, some 1100, some 50⟩
     (by decide) (by decide) (by decide) (Or.inr rfl) (by decide) (by decide)⟩

/-- C8: For every normal or einfach_ab round resolution that does not
terminate the session (response `game_finished = false`), exactly one
new round skeleton is appended: `round = round_no + 1`,
`mixing = (previous mixing mod 4) + 1`, `total_team1/2` equal to the
just-computed cumulative totals, and all bid/meld/play/confirmed/result
fields unset. -/
theorem C8_next_round_skeleton
    (st : GameState)
    (round_no bid_value bid_team meld1 meld2 play1 play2 mx : Int)
    (mode : String) (lr : Round) (st' : GameState) (resp : CalcResult)
    (w : Option String) (t1 t2 : Int)
    (hbv1 : 200 ≤ bid_value) (hbv2 : bid_value % 10 = 0)
    (hbt : bid_team = 1 ∨ bid_team = 2)
    (hmode : mode = "normal" ∨ mode = "einfach_ab")
    (hlast : st.rounds.getLast? = some lr)
    (hlr : lr.round = some round_no)
    (hmix : lr.mixing = some mx) (hmx1 : 1 ≤ mx) (hmx4 : mx ≤ 4)
    (heq : api_calculate_round st round_no bid_value bid_team meld1 meld2
      play1 play2 mode = .ok (st', resp))
    (hresp : resp = .okResp false w t1 t2) :
    st'.rounds.length = st.rounds.length + 1 ∧
    ∃ sk, st'.rounds.getLast? = some sk ∧
      sk.round = some (round_no + 1) ∧
      sk.mixing = some (mx % 4 + 1) ∧
      sk.total_team1 = some t1 ∧
      sk.total_team2 = some t2 ∧
      sk.bid_value = none ∧ sk.bid_team = none ∧
      sk.meld_team1 = none ∧ sk.meld_team2 = none ∧
      sk.play_team1 = none ∧ sk.play_team2 = none ∧
      sk.confirmed = none ∧
      sk.result_team1 = none ∧ sk.result_team2 = none := by
  obtain ⟨pt1, pt2, hprev⟩ :
      ∃ a b, compute_previous_totals st.rounds.dropLast = (a, b) :=
    ⟨_, _, rfl⟩
  obtain ⟨c, r1, r2, hs⟩ :
      ∃ a b d, compute_scores mode bid_value bid_team meld1 meld2 play1
        play2 = (a, b, d) := ⟨_, _, _, rfl⟩
  obtain ⟨gf, w', hfin⟩ :
      ∃ g u, check_finished bid_team (pt1 + r1) (pt2 + r2) = (g, u) :=
    ⟨_, _, rfl⟩
  obtain ⟨hresp', htrue, hfalse⟩ := calc_ok_spec st round_no bid_value
    bid_team meld1 meld2 play1 play2 mode lr st' resp c r1 r2 pt1 pt2 gf w'
    hbv1 hbv2 hbt hmode hlast hlr hprev hs hfin heq
  rw [hresp] at hresp'
  simp only [CalcResult.okResp.injEq] at hresp'
  obtain ⟨hg, hw, ht1, ht2⟩ := hresp'
  subst ht1
  subst ht2
  rw [hfalse hg.symm]
  refine ⟨by simp, _, List.getLast?_concat _, rfl, ?_, rfl, rfl, rfl, rfl,
    rfl, rfl, rfl, rfl, rfl, rfl, rfl⟩
  show some ((match lr.mixing with
    | none => 1
    | some m => if m = 0 then 1 else m) % 4 + 1) = some (mx % 4 + 1)
  rw [hmix]
  dsimp only
  rw [if_neg (by omega)]

/-- C8 witness: on the fresh game `stA` (round 1, mixer 1), resolving
round 1 without a win appends round 2 with mixer `1 % 4 + 1 = 2` and
starting totals 250/0, all other fields unset. -/
theorem C8_next_round_skeleton_witness :
    api_calculate_round stA 1 220 1 100 0 150 0 "normal" =
      .ok (stA_after, .okResp false none 250 0) ∧
    stA_after.rounds.length = stA.rounds.length + 1 ∧
    stA_after.rounds.getLast? =
      some ⟨some 2, some 2, none, none, none, none, none, none, none, none,
            none, some 250, some 0⟩ := by
  have h := C8_next_round_skeleton stA 1 220 1 100 0 150 0 1 "normal"
    { emptyRound with round := some 1, mixing := some 1 } stA_after
    (.okResp false none 250 0) none 250 0 (by decide) (by decide)
    (Or.inl rfl) (Or.inl rfl) (by decide) (by decide) (by decide)
    (by decide) (by decide) (by decide) rfl
  exact ⟨by decide, h.1, by decide⟩

/-- C10: a recordRound call whose `bid_value` is below 200 or not a
multiple of 10 is rejected with the bid-value validation error for
every mode — the check precedes the mode dispatch, so it applies to
`thousand` as well. -/
theorem C10_bid_value_validated_before_mode
    (st : GameState)
    (round_no bid_value bid_team meld1 meld2 play1 play2 : Int)
    (mode : String)
    (hbad : bid_value < 200 ∨ bid_value % 10 ≠ 0) :
    api_calculate_round st round_no bid_value bid_team meld1 meld2 play1
      play2 mode =
      .error ⟨400, "Gereizt Wert muss ab 200 in 10er Schritten sein"⟩ := by
  unfold api_calculate_round
  rw [if_pos hbad]

/-- C10 witness: a `thousand` call with `bid_value = 150` is rejected
with the bid-value validation error. -/
theorem C10_bid_value_validated_before_mode_witness :
    ((150:Int) < 200 ∨ (150:Int) % 10 ≠ 0) ∧
    api_calculate_round stA 1 150 1 0 0 0 0 "thousand" =
      .error ⟨400, "Gereizt Wert muss ab 200 in 10er Schritten sein"⟩ :=
  ⟨Or.inl (by decide),
   C10_bid_value_validated_before_mode stA 1 150 1 0 0 0 0 "thousand"
     (Or.inl (by decide))⟩

lemma ensure_game_table_overviews (s : Store) (game_id : Int) :
    (ensure_game_table s game_id).overviews = s.overviews := by
  unfold ensure_game_table
  split <;> rfl

lemma insert_round_row_overviews (s : Store) (game_id : Int) (r : Round) :
    (insert_round_row s game_id r).overviews = s.overviews := rfl

/-- C6 counterexample: the `Overview` schema declares
`end_points_team1/2 INTEGER DEFAULT 0`, so a freshly created session
stores 0 (non-null) in both while `winner` is NULL — the claimed
iff "winner non-null ⟺ end points non-null" is false for a fresh
session. -/
theorem C6_counterexample :
    api_create_game emptyStore "A" "B" "C" "D" 1 "t" =
      .ok (⟨2, [(1, ovA)],
            [(1, [{ emptyRound with round := some 1, mixing := some 1 }])]⟩,
           1) ∧
    ovA.winner = none ∧
    ovA.end_points_team1 = some 0 ∧
    ovA.end_points_team2 = some 0 ∧
    ¬(ovA.winner ≠ none ↔ ovA.end_points_team1 ≠ none) := by
  decide

/-- C6 (amended): a freshly created, non-terminal session has `winner`
NULL and `end_points_team1/2` equal to 0 — non-null, because of the
schema DEFAULT — so only one direction of the claimed iff holds: if
`winner` is non-null then the end points are non-null, and round
resolution preserves this implication (`winner` and end points are
always written together). -/
theorem C6_winner_endpoints_invariant
    (s : Store) (player1 player2 player3 player4 : String)
    (mfr : Int) (created_at : String) (s' : Store) (gid : Int)
    (st st' : GameState) (round_no bv bt m1 m2 p1 p2 : Int) (mode : String)
    (resp : CalcResult)
    (hc : api_create_game s player1 player2 player3 player4 mfr created_at
      = .ok (s', gid))
    (hr : api_calculate_round st round_no bv bt m1 m2 p1 p2 mode
      = .ok (st', resp))
    (hinv : st.overview.winner ≠ none →
      st.overview.end_points_team1 ≠ none ∧
      st.overview.end_points_team2 ≠ none) :
    (∃ ov, (gid, ov) ∈ s'.overviews ∧ ov.winner = none ∧
      ov.end_points_team1 = some 0 ∧ ov.end_points_team2 = some 0) ∧
    (st'.overview.winner ≠ none →
      st'.overview.end_points_team1 ≠ none ∧
      st'.overview.end_points_team2 ≠ none) := by
  constructor
  · unfold api_create_game at hc
    dsimp only at hc
    split at hc
    · exact absurd hc (by simp)
    split at hc
    · exact absurd hc (by simp)
    simp only [Except.ok.injEq, Prod.mk.injEq] at hc
    obtain ⟨hs', hgid⟩ := hc
    subst hs'
    subst hgid
    refine ⟨⟨strip player1, strip player2, strip player3, strip player4,
      created_at, strip player1 ++ " & " ++ strip player3,
      strip player2 ++ " & " ++ strip player4, some 0, some 0, none⟩,
      ?_, rfl, rfl, rfl⟩
    rw [insert_round_row_overviews, ensure_game_table_overviews]
    exact List.mem_append_right _ (List.mem_singleton_self _)
  · intro hw
    unfold api_calculate_round at hr
    split at hr
    · exact absurd hr (by simp)
    split at hr
    · exact absurd hr (by simp)
    split at hr
    · exact absurd hr (by simp)
    split at hr
    · exact absurd hr (by simp)
    split at hr
    · exact absurd hr (by simp)
    dsimp only at hr
    split at hr
    · simp only [Except.ok.injEq, Prod.mk.injEq] at hr
      obtain ⟨h1, -⟩ := hr
      subst h1
      exact ⟨by simp, by simp⟩
    · split at hr
      · simp only [Except.ok.injEq, Prod.mk.injEq] at hr
        obtain ⟨h1, -⟩ := hr
        subst h1
        exact ⟨by simp, by simp⟩
      · simp only [Except.ok.injEq, Prod.mk.injEq] at hr
        obtain ⟨h1, -⟩ := hr
        subst h1
        exact hinv hw

/-- C6 witness: creating a game in the empty database and resolving a
round of `stA`: the created row has `winner = NULL`,
`end_points = 0/0`; the resolved non-terminal state keeps the
implication trivially. -/
theorem C6_winner_endpoints_invariant_witness :
    (∃ ov, ((1:Int), ov) ∈ [((1:Int), ovA)] ∧ ov.winner = none ∧
      ov.end_points_team1 = some 0 ∧ ov.end_points_team2 = some 0) ∧
    (stA_after.overview.winner ≠ none →
      stA_after.overview.end_points_team1 ≠ none ∧
      stA_after.overview.end_points_team2 ≠ none) := by
  have h := C6_winner_endpoints_invariant emptyStore "A" "B" "C" "D" 1 "t"
    ⟨2, [(1, ovA)],
     [(1, [{ emptyRound with round := some 1, mixing := some 1 }])]⟩ 1
    stA stA_after 1 220 1 100 0 150 0 "normal" (.okResp false none 250 0)
    (by decide) (by decide) (fun hw => absurd rfl hw)
  obtain ⟨⟨ov, hmem, hw, h1, h2⟩, himp⟩ := h
  exact ⟨⟨ov, hmem, hw, h1, h2⟩, himp⟩

/-- C7 counterexample: a recordRound call with `meld_team1 = -50` is
not rejected with any validation error — it succeeds and the scoring
engine runs on the negative value, mutating the ledger. -/
theorem C7_counterexample :
    api_calculate_round stA 1 200 1 (-50) 0 0 0 "normal" =
      .ok (stA_neg, .okResp false none (-400) 0) := by
  decide

lemma ite_ok_exists {c : Prop} [Decidable c] (x y : GameState × CalcResult) :
    ∃ st' resp,
      (if c then (.ok x : Except HTTPError (GameState × CalcResult))
       else .ok y) = .ok (st', resp) := by
  split
  · exact ⟨x.1, x.2, rfl⟩
  · exact ⟨y.1, y.2, rfl⟩

/-- C7 (amended): meld and play values are never validated: for every
call whose bid value, bid team, mode and round number pass the checks,
the call succeeds no matter the meld/play values — negative values
included — and the scoring engine runs on them. -/
theorem C7_negative_melds_not_validated
    (st : GameState)
    (round_no bid_value bid_team meld1 meld2 play1 play2 : Int)
    (mode : String) (lr : Round)
    (hbv1 : 200 ≤ bid_value) (hbv2 : bid_value % 10 = 0)
    (hbt : bid_team = 1 ∨ bid_team = 2)
    (hmode : mode = "normal" ∨ mode = "einfach_ab" ∨ mode = "thousand")
    (hlast : st.rounds.getLast? = some lr)
    (hlr : lr.round = some round_no) :
    ∃ st' resp,
      api_calculate_round st round_no bid_value bid_team meld1 meld2 play1
        play2 mode = .ok (st', resp) := by
  have hne : ¬(bid_value < 200 ∨ bid_value % 10 ≠ 0) := by omega
  unfold api_calculate_round
  rw [if_neg hne]
  rw [if_neg (not_not_intro hbt)]
  rw [if_neg (not_not_intro hmode)]
  rw [hlast]
  dsimp only
  rw [if_neg (by simp [hlr])]
  by_cases hth : mode = "thousand"
  · rw [if_pos hth]
    exact ⟨_, _, rfl⟩
  · rw [if_neg hth]
    exact ite_ok_exists _ _

/-- C7 witness: applied with `meld1 = -50 < 0` — the call succeeds. -/
theorem C7_negative_melds_not_validated_witness :
    (-50 : Int) < 0 ∧
    ∃ st' resp,
      api_calculate_round stA 1 200 1 (-50) 0 0 0 "normal" =
        .ok (st', resp) :=
  ⟨by decide,
   C7_negative_melds_not_validated stA 1 200 1 (-50) 0 0 0 "normal"
     { emptyRound with round := some 1, mixing := some 1 }
     (by decide) (by decide) (Or.inl rfl) (Or.inl rfl) (by decide)
     (by decide)⟩

/-- C9 counterexample: deleting a session id that does not exist does
not succeed — `api_delete_game` calls `fetch_overview` first, which
raises 404 "Game not found". -/
theorem C9_counterexample :
    api_delete_game emptyStore 1 = .error ⟨404, "Game not found"⟩ := by
  decide

/-- C9 (amended): deleteSession is not idempotent on a missing session:
when no `Overview` row has the id it fails with `NotFoundError` (404);
when the session exists it removes both the session row and the
per-session ledger segment (neither is findable afterwards). -/
theorem C9_delete_missing_session_404
    (s : Store) (gid : Int) :
    (s.overviews.find? (fun p => p.1 = gid) = none →
      api_delete_game s gid = .error ⟨404, "Game not found"⟩) ∧
    (∀ pr, s.overviews.find? (fun p => p.1 = gid) = some pr →
      api_delete_game s gid =
        .ok ⟨s.nextId, s.overviews.filter (fun p => p.1 ≠ gid),
             s.tables.filter (fun p => p.1 ≠ gid)⟩ ∧
      (s.overviews.filter (fun p => p.1 ≠ gid)).find?
        (fun p => p.1 = gid) = none ∧
      (s.tables.filter (fun p => p.1 ≠ gid)).find?
        (fun p => p.1 = gid) = none) := by
  constructor
  · intro h
    unfold api_delete_game fetch_overview
    rw [h]
  · intro pr h
    refine ⟨?_, ?_, ?_⟩
    · unfold api_delete_game fetch_overview
      rw [h]
    · rw [List.find?_eq_none]
      intro x hx
      rw [List.mem_filter] at hx
      simp only [decide_eq_true_eq] at hx ⊢
      exact hx.2
    · rw [List.find?_eq_none]
      intro x hx
      rw [List.mem_filter] at hx
      simp only [decide_eq_true_eq] at hx ⊢
      exact hx.2

/-- C9 witness: in a store holding exactly game 1, deleting game 1
removes its `Overview` row and its round table; in the empty store the
lookup is `none` and the delete call 404s. -/
theorem C9_delete_missing_session_404_witness :
    (emptyStore.overviews.find? (fun p => p.1 = 1) = none ∧
      api_delete_game emptyStore 1 = .error ⟨404, "Game not found"⟩) ∧
    (api_delete_game ⟨2, [(1, ovA)],
        [(1, [{ emptyRound with round := some 1, mixing := some 1 }])]⟩ 1 =
      .ok ⟨2, [], []⟩) := by
  have h1 := (C9_delete_missing_session_404 emptyStore 1).1 rfl
  have h2 := (C9_delete_missing_session_404
    ⟨2, [(1, ovA)],
     [(1, [{ emptyRound with round := some 1, mixing := some 1 }])]⟩ 1).2
    (1, ovA) rfl
  refine ⟨⟨rfl, h1⟩, ?_⟩
  rw [h2.1]
  decide

end Binokel
